import Mathlib

/-!
Shallow embedding of `src/components/data_validation.py`, the validation
decision engine of the customer-categorizer pipeline: schema-column checking,
drift-status extraction from a statistical report, and the orchestrator
`initiate_data_validation` that combines both into a `DataValidationArtifact`.

External collaborators (pandas CSV loading, the evidently statistical engine)
are modelled as explicit function parameters; side effects (printing, writing
the YAML report) are modelled as an explicit effect list.
-/

/-- A named column of a tabular dataset.  Values are modelled as integers
(the statistical engine treats them only through counting/frequency). -/
structure Column where
  name : String
  values : List Int
deriving DecidableEq

/-- A tabular dataset: an ordered sequence of named columns, as produced by
the dataset loader (`pd.read_csv`). -/
structure Dataset where
  columns : List Column
deriving DecidableEq

/-- The `result` dictionary of one metric entry of the report produced by the
statistical engine.  Each field is `Option` so that the presence of the
corresponding dictionary key (`"dataset_drift" in res`) is expressible. -/
structure MetricResult where
  dataset_drift : Option Bool
  number_of_drifted_columns : Option Nat
  number_of_columns : Option Nat
deriving DecidableEq

/-- One entry of the `metrics` list of the report dictionary
(`report_dict.get("metrics", [])` in the source). -/
structure MetricEntry where
  result : MetricResult
deriving DecidableEq

/-- The drift-status extraction loop of `detect_dataset_drift`
(data_validation.py lines 93-111): scan the metric entries for the first one
whose result holds a `dataset_drift` or `number_of_drifted_columns` key and
take `bool(res.get("dataset_drift", False))`; default `False` when no entry
matches. -/
def extract_drift_status (metrics : List MetricEntry) : Bool :=
  match metrics.find? (fun m =>
      m.result.dataset_drift.isSome || m.result.number_of_drifted_columns.isSome) with
  | some m => m.result.dataset_drift.getD false
  | none => false

/-- Observable side effects of the validation component. -/
inductive Effect where
  | printEvaluation
  | writeYaml (path : String)
deriving DecidableEq

/-- Embedding of `DataValidation.detect_dataset_drift` (lines 66-114).  The
statistical engine (`Report([DataDriftPreset()]).run(current_df, reference_df)`)
is an explicit parameter producing the report's metric entries; the method
prints the evaluation, writes the report dictionary as YAML to the configured
path, extracts the drift status and returns it.  The returned effect list
records the side effects in source order. -/
def detect_dataset_drift
    (engine : Dataset → Dataset → List MetricEntry)
    (drift_report_file_path : String)
    (reference_df current_df : Dataset) : Bool × List Effect :=
  let report_dict := engine current_df reference_df
  let drift_status := extract_drift_status report_dict
  (drift_status, [Effect.printEvaluation, Effect.writeYaml drift_report_file_path])

/-- Embedding of `DataValidation.validate_schema_columns` (lines 32-42):
the status is `len(dataframe.columns) == len(self._schema_config["columns"])`,
where the expected column count from the schema configuration is the
parameter `schema_column_count`. -/
def validate_schema_columns (schema_column_count : Nat) (dataframe : Dataset) : Bool :=
  dataframe.columns.length == schema_column_count

/-- Embedding of `DataValidation.validate_dataset_schema_columns`
(lines 44-64): run the schema check on the train set, then on the test set. -/
def validate_dataset_schema_columns (schema_column_count : Nat)
    (train_set test_set : Dataset) : Bool × Bool :=
  (validate_schema_columns schema_column_count train_set,
   validate_schema_columns schema_column_count test_set)

/-- The repository's single exception wrapper `CustomerException`. -/
inductive CustomerException where
  | wrap (message : String)
deriving DecidableEq

/-- Embedding of the static method `DataValidation.read_data` (lines 115-120):
delegate to the loader (`pd.read_csv`) and wrap any failure in
`CustomerException`. -/
def read_data (loader : String → Except String Dataset) (file_path : String) :
    Except CustomerException Dataset :=
  match loader file_path with
  | Except.ok df => Except.ok df
  | Except.error e => Except.error (CustomerException.wrap e)

/-- The combination step of `initiate_data_validation` (lines 147-151):
`schema_train_col_status is True and schema_test_col_status is True and
drift is False`. -/
def combine_validation_status
    (schema_train_col_status schema_test_col_status drift : Bool) : Bool :=
  (schema_train_col_status == true) && (schema_test_col_status == true) && (drift == false)

/-- The ingestion artifact consumed by the orchestrator: paths of the train
and test CSV files (`src/entity/artifact_entity.py`). -/
structure DataIngestionArtifact where
  trained_file_path : String
  test_file_path : String
deriving DecidableEq

/-- The configuration consumed by the orchestrator: invalid-data paths and
the drift-report path (`src/entity/config_entity.py`). -/
structure DataValidationConfig where
  invalid_train_file_path : String
  invalid_test_file_path : String
  drift_report_file_path : String
deriving DecidableEq

/-- The artifact emitted by the orchestrator (lines 153-160). -/
structure DataValidationArtifact where
  validation_status : Bool
  valid_train_file_path : String
  valid_test_file_path : String
  invalid_train_file_path : String
  invalid_test_file_path : String
  drift_report_file_path : String
deriving DecidableEq

/-- Phases of the orchestrator run, as named by the specification's state
machine. -/
inductive Phase where
  | LOAD_DATASETS
  | CHECK_SCHEMAS
  | DETECT_DRIFT
  | COMBINE
  | PERSIST_REPORT
  | EMIT_ARTIFACT
deriving DecidableEq

/-- Map a side effect of the drift component to the orchestration phase it
realizes: writing the YAML report is the report-persistence phase, printing
corresponds to no phase. -/
def effect_phase : Effect → List Phase
  | Effect.printEvaluation => []
  | Effect.writeYaml _ => [Phase.PERSIST_REPORT]

/-- Embedding of `DataValidation.initiate_data_validation` (lines 122-165),
in source order: load the train CSV, load the test CSV, run
`detect_dataset_drift` (train as reference, test as current), run
`validate_dataset_schema_columns`, combine the three booleans, and build the
artifact with the valid paths taken from the ingestion artifact and the
invalid/report paths taken from the configuration.  The returned phase trace
records the execution order, with the persistence phase placed where the
drift component's own write effect occurs. -/
def initiate_data_validation
    (loader : String → Except String Dataset)
    (engine : Dataset → Dataset → List MetricEntry)
    (schema_column_count : Nat)
    (data_ingestion_artifact : DataIngestionArtifact)
    (data_validation_config : DataValidationConfig) :
    Except CustomerException (DataValidationArtifact × List Phase) :=
  match read_data loader data_ingestion_artifact.trained_file_path with
  | Except.error e => Except.error e
  | Except.ok train_df =>
    match read_data loader data_ingestion_artifact.test_file_path with
    | Except.error e => Except.error e
    | Except.ok test_df =>
      let drift_run := detect_dataset_drift engine
          data_validation_config.drift_report_file_path train_df test_df
      let schema_statuses := validate_dataset_schema_columns schema_column_count train_df test_df
      let validation_status :=
          combine_validation_status schema_statuses.1 schema_statuses.2 drift_run.1
      let artifact : DataValidationArtifact :=
        { validation_status := validation_status
          valid_train_file_path := data_ingestion_artifact.trained_file_path
          valid_test_file_path := data_ingestion_artifact.test_file_path
          invalid_train_file_path := data_validation_config.invalid_train_file_path
          invalid_test_file_path := data_validation_config.invalid_test_file_path
          drift_report_file_path := data_validation_config.drift_report_file_path }
      let trace := [Phase.LOAD_DATASETS, Phase.DETECT_DRIFT]
          ++ (drift_run.2.map effect_phase).flatten
          ++ [Phase.CHECK_SCHEMAS, Phase.COMBINE, Phase.EMIT_ARTIFACT]
      Except.ok (artifact, trace)

/-- Modelled from the spec: the per-column statistical drift test and the
drift aggregation are performed inside the third-party evidently library
(`Report([DataDriftPreset()])`), whose source is not part of this repository.
Following spec sections 4.2-4.3, the per-column test yields a scalar statistic
compared against a fixed documented threshold; the statistic here is the total
variation distance between the value-frequency distributions of the two
columns (zero exactly for identical distributions).  This is the fixed
per-column drift threshold. -/
def driftThreshold : ℚ := 1 / 20

/-- Modelled from the spec: relative frequency of value `v` in the column
values `xs` (a frequency-distribution view of a column, spec section 4.2). -/
def freqRatio (v : Int) (xs : List Int) : ℚ :=
  (xs.count v : ℚ) / (xs.length : ℚ)

/-- Modelled from the spec: total variation distance between the value
distributions of two columns; the scalar test statistic of the per-column
drift detector (spec section 4.2). -/
def tvDistance (xs ys : List Int) : ℚ :=
  (((xs ++ ys).dedup).map (fun v => |freqRatio v xs - freqRatio v ys|)).sum / 2

/-- Per-column drift result, spec section 3 (`ColumnDriftResult`). -/
structure ColumnDriftResult where
  column_name : String
  test_statistic : ℚ
  drift_detected : Bool
deriving DecidableEq

/-- Modelled from the spec: the per-column drift detector (spec section 4.2),
`detect(reference_column, current_column) -> ColumnDriftResult`: the test
statistic compared against the fixed threshold gives the drift flag. -/
def detectColumn (reference_column current_column : Column) : ColumnDriftResult :=
  let s := tvDistance reference_column.values current_column.values
  { column_name := reference_column.name
    test_statistic := s
    drift_detected := decide (driftThreshold < s) }

/-- First column of `d` with the given name, the column-by-name lookup used to
pair shared columns of the two datasets. -/
def lookupColumn (column_name : String) (d : Dataset) : Option Column :=
  d.columns.find? (fun c => c.name == column_name)

/-- Dataset-level drift report, spec section 3 (`DriftReport`). -/
structure DriftReport where
  number_of_columns : Nat
  number_of_drifted_columns : Nat
  dataset_drift : Bool
  columns : List ColumnDriftResult
deriving DecidableEq

/-- Modelled from the spec: the drift aggregator (spec section 4.3),
`aggregate(reference_dataset, current_dataset) -> DriftReport`: run the
per-column detector on every shared column (intersection by name, a column
of the reference paired with the current dataset's column of the same name),
count the drifted columns, and set `dataset_drift` when the drifted share
exceeds the threshold 0.5 (the spec's default fraction rule). -/
def aggregate (reference_dataset current_dataset : Dataset) : DriftReport :=
  let shared := reference_dataset.columns.filterMap (fun c =>
    match lookupColumn c.name current_dataset with
    | some cur => some (detectColumn c cur)
    | none => none)
  let n := shared.length
  let k := (shared.filter (fun r => r.drift_detected)).length
  { number_of_columns := n
    number_of_drifted_columns := k
    dataset_drift := decide ((1 : ℚ) / 2 < (k : ℚ) / (n : ℚ))
    columns := shared }

/-- Concrete train dataset used as a test fixture: two columns, compared
against the expected schema count 2. -/
def dsA : Dataset :=
  { columns := [ { name := "age", values := [20, 21, 22] },
                 { name := "salary", values := [10, 20, 30] } ] }

/-- Concrete test dataset fixture with the same column names as `dsA`. -/
def dsB : Dataset :=
  { columns := [ { name := "age", values := [90, 91, 92] },
                 { name := "salary", values := [10, 20, 30] } ] }

/-- Concrete dataset fixture whose column names are disjoint from `dsA`. -/
def dsC : Dataset :=
  { columns := [ { name := "height", values := [1, 2] } ] }

/-- Concrete loader fixture resolving the two configured CSV paths. -/
def loaderC : String → Except String Dataset := fun p =>
  if p == "artifacts/train.csv" then Except.ok dsA
  else if p == "artifacts/test.csv" then Except.ok dsB
  else Except.error "file not found"

/-- Loader fixture that fails on every path, as `pd.read_csv` does on an
unreadable or malformed file. -/
def loaderFail : String → Except String Dataset := fun _ =>
  Except.error "parse error"

/-- Engine fixture whose report carries a preset-level summary reporting
drift. -/
def engineDrift : Dataset → Dataset → List MetricEntry := fun _ _ =>
  [ { result := { dataset_drift := some true
                  number_of_drifted_columns := some 1
                  number_of_columns := some 2 } } ]

/-- Engine fixture whose report has no metric entries at all (so no entry
carries a drift summary key). -/
def engineEmpty : Dataset → Dataset → List MetricEntry := fun _ _ => []

/-- Concrete ingestion artifact fixture. -/
def ingC : DataIngestionArtifact :=
  { trained_file_path := "artifacts/train.csv"
    test_file_path := "artifacts/test.csv" }

/-- Concrete validation configuration fixture. -/
def cfgC : DataValidationConfig :=
  { invalid_train_file_path := "artifacts/invalid_train.csv"
    invalid_test_file_path := "artifacts/invalid_test.csv"
    drift_report_file_path := "artifacts/drift_report.yaml" }

/-- The artifact produced by the fixture run
`initiate_data_validation loaderC engineDrift 2 ingC cfgC`: both schema checks
pass but the engine reports drift, so the validation status is false. -/
def artC : DataValidationArtifact :=
  { validation_status := false
    valid_train_file_path := "artifacts/train.csv"
    valid_test_file_path := "artifacts/test.csv"
    invalid_train_file_path := "artifacts/invalid_train.csv"
    invalid_test_file_path := "artifacts/invalid_test.csv"
    drift_report_file_path := "artifacts/drift_report.yaml" }

/-- The phase trace produced by every successful fixture run. -/
def trC : List Phase :=
  [Phase.LOAD_DATASETS, Phase.DETECT_DRIFT, Phase.PERSIST_REPORT,
   Phase.CHECK_SCHEMAS, Phase.COMBINE, Phase.EMIT_ARTIFACT]

/-- Helper: the combination step written with identity tests against the
boolean literals (as the Python `is True` / `is False` comparisons) equals
the plain boolean formula. -/
theorem combine_validation_status_eq (a b d : Bool) :
    combine_validation_status a b d = (a && b && !d) := by
  cases a <;> cases b <;> cases d <;> rfl

/-- Helper: the first projection of the drift component is the extraction of
the engine report's drift status. -/
theorem detect_dataset_drift_fst (engine : Dataset → Dataset → List MetricEntry)
    (path : String) (reference_df current_df : Dataset) :
    (detect_dataset_drift engine path reference_df current_df).1
      = extract_drift_status (engine current_df reference_df) := rfl

/-- C1: in the emitted `ValidationArtifact`, `validation_status` equals
`schema_ok(train) AND schema_ok(test) AND NOT dataset_drift`, for every
loader, engine, schema count and configuration (so in particular for all 8
combinations of the three booleans). -/
theorem validation_status_combination_law
    (loader : String → Except String Dataset)
    (engine : Dataset → Dataset → List MetricEntry)
    (n : Nat) (ing : DataIngestionArtifact) (cfg : DataValidationConfig)
    (train_df test_df : Dataset) (a : DataValidationArtifact) (tr : List Phase)
    (hT : loader ing.trained_file_path = Except.ok train_df)
    (hS : loader ing.test_file_path = Except.ok test_df)
    (h : initiate_data_validation loader engine n ing cfg = Except.ok (a, tr)) :
    a.validation_status =
      (validate_schema_columns n train_df && validate_schema_columns n test_df &&
        !(detect_dataset_drift engine cfg.drift_report_file_path train_df test_df).1) := by
  unfold initiate_data_validation read_data at h
  rw [hT, hS] at h
  simp only [validate_dataset_schema_columns, Except.ok.injEq, Prod.mk.injEq] at h
  rw [← h.1, ← combine_validation_status_eq]

/-- Witness for C1 at the concrete fixture run: both schema checks succeed,
the engine reports drift, and the emitted status matches the boolean
formula. -/
theorem validation_status_combination_law_witness :
    loaderC ingC.trained_file_path = Except.ok dsA ∧
    loaderC ingC.test_file_path = Except.ok dsB ∧
    initiate_data_validation loaderC engineDrift 2 ingC cfgC = Except.ok (artC, trC) ∧
    artC.validation_status =
      (validate_schema_columns 2 dsA && validate_schema_columns 2 dsB &&
        !(detect_dataset_drift engineDrift cfgC.drift_report_file_path dsA dsB).1) :=
  ⟨rfl, rfl, rfl,
    validation_status_combination_law loaderC engineDrift 2 ingC cfgC dsA dsB artC trC
      rfl rfl rfl⟩

/-- C2: the schema check returns true exactly when the dataset's column count
equals the expected count from the schema configuration, and false for every
other count (in particular for an empty dataset when the expected count is
nonzero); the function is total, so it never fails on well-formed input. -/
theorem validate_schema_columns_spec (n : Nat) (df : Dataset) :
    (validate_schema_columns n df = true ↔ df.columns.length = n) ∧
    (validate_schema_columns n df = false ↔ df.columns.length ≠ n) := by
  constructor <;> simp [validate_schema_columns]

/-- C5 counterexample: at a concrete input, the drift-detection component's
effect list is not empty — it contains the write of the YAML report to the
configured path, so persistence happens inside the drift component, not only
in a separate orchestrator phase. -/
theorem drift_side_effect_cex :
    (detect_dataset_drift engineDrift "artifacts/drift_report.yaml" dsA dsB).2
        = [Effect.printEvaluation, Effect.writeYaml "artifacts/drift_report.yaml"] ∧
    Effect.writeYaml "artifacts/drift_report.yaml"
        ∈ (detect_dataset_drift engineDrift "artifacts/drift_report.yaml" dsA dsB).2 := by
  exact ⟨rfl, by simp [detect_dataset_drift]⟩

/-- C5 amended: `detect_dataset_drift` itself persists the drift report
(`write_yaml_file`) to the configured path as one of its side effects, for
every engine, path and dataset pair; the orchestrator performs no separate
persistence step of its own. -/
theorem detect_dataset_drift_persists_report
    (engine : Dataset → Dataset → List MetricEntry)
    (path : String) (reference_df current_df : Dataset) :
    Effect.writeYaml path ∈ (detect_dataset_drift engine path reference_df current_df).2 := by
  simp [detect_dataset_drift]

/-- C10: whenever the engine's report dictionary contains no metric entry
carrying a `dataset_drift` or `number_of_drifted_columns` key in its result,
`detect_dataset_drift` returns false (no drift) rather than failing. -/
theorem detect_drift_false_when_no_summary_entry
    (engine : Dataset → Dataset → List MetricEntry)
    (path : String) (reference_df current_df : Dataset)
    (h : (engine current_df reference_df).find? (fun m =>
        m.result.dataset_drift.isSome || m.result.number_of_drifted_columns.isSome) = none) :
    (detect_dataset_drift engine path reference_df current_df).1 = false := by
  rw [detect_dataset_drift_fst]
  unfold extract_drift_status
  rw [h]

/-- Witness for C10: the engine producing an empty metrics list makes the
drift status false. -/
theorem detect_drift_false_when_no_summary_entry_witness :
    (engineEmpty dsC dsA).find? (fun m =>
        m.result.dataset_drift.isSome || m.result.number_of_drifted_columns.isSome) = none ∧
    (detect_dataset_drift engineEmpty "artifacts/drift_report.yaml" dsA dsC).1 = false :=
  ⟨rfl, detect_drift_false_when_no_summary_entry engineEmpty
    "artifacts/drift_report.yaml" dsA dsC rfl⟩

/-- C3 counterexample: two concrete datasets with no column name in common,
and an engine whose report has no drift-summary entry for them; the component
returns the pair (false, effects) — a "no drift" result — instead of raising
any error, and the repository defines no `EmptyComparisonError` at all. -/
theorem empty_intersection_returns_false_cex :
    (dsA.columns.filter (fun c => (lookupColumn c.name dsC).isSome)) = [] ∧
    detect_dataset_drift engineEmpty "artifacts/drift_report.yaml" dsA dsC
      = (false, [Effect.printEvaluation, Effect.writeYaml "artifacts/drift_report.yaml"]) := by
  exact ⟨rfl, rfl⟩

/-- C3 amended: the code has no `EmptyComparisonError`; when the engine's
report carries no metric whose result holds a `dataset_drift` or
`number_of_drifted_columns` key — which is all the repository can observe of
an empty shared column set — `detect_dataset_drift` returns false (no drift)
instead of raising. -/
theorem empty_comparison_yields_false_not_error
    (engine : Dataset → Dataset → List MetricEntry)
    (path : String) (reference_df current_df : Dataset)
    (h : ∀ m ∈ engine current_df reference_df,
        m.result.dataset_drift = none ∧ m.result.number_of_drifted_columns = none) :
    (detect_dataset_drift engine path reference_df current_df).1 = false := by
  rw [detect_dataset_drift_fst]
  unfold extract_drift_status
  cases hf : (engine current_df reference_df).find? (fun m =>
      m.result.dataset_drift.isSome || m.result.number_of_drifted_columns.isSome) with
  | none => rfl
  | some m =>
    have hm := List.mem_of_find?_eq_some hf
    have hp := List.find?_some hf
    rcases h m hm with ⟨h1, h2⟩
    rw [h1, h2] at hp
    simp at hp

/-- Witness for C3's amended statement at the concrete disjoint datasets. -/
theorem empty_comparison_yields_false_not_error_witness :
    (∀ m ∈ engineEmpty dsC dsA,
        m.result.dataset_drift = none ∧ m.result.number_of_drifted_columns = none) ∧
    (detect_dataset_drift engineEmpty "artifacts/drift_report.yaml" dsA dsC).1 = false :=
  ⟨(fun _ hm => nomatch hm),
   (empty_comparison_yields_false_not_error engineEmpty "artifacts/drift_report.yaml" dsA dsC
     (fun _ hm => nomatch hm))⟩

/-- C4 counterexample: in the concrete successful fixture run, drift
detection executes before the schema checks and report persistence executes
before the combine step, contradicting the claimed order
LOAD_DATASETS, CHECK_SCHEMAS, DETECT_DRIFT, COMBINE, PERSIST_REPORT,
EMIT_ARTIFACT. -/
theorem phase_order_cex :
    initiate_data_validation loaderC engineDrift 2 ingC cfgC = Except.ok (artC, trC) ∧
    trC.indexOf Phase.DETECT_DRIFT < trC.indexOf Phase.CHECK_SCHEMAS ∧
    trC.indexOf Phase.PERSIST_REPORT < trC.indexOf Phase.COMBINE := by
  exact ⟨rfl, (by decide), (by decide)⟩

/-- C4 amended: in every successful run the phases execute in the order
LOAD_DATASETS, DETECT_DRIFT, PERSIST_REPORT (performed inside the drift
component), CHECK_SCHEMAS, COMBINE, EMIT_ARTIFACT; in particular drift
detection happens before the schema checks, and report persistence happens
before the combine step. -/
theorem phase_order_actual
    (loader : String → Except String Dataset)
    (engine : Dataset → Dataset → List MetricEntry)
    (n : Nat) (ing : DataIngestionArtifact) (cfg : DataValidationConfig)
    (a : DataValidationArtifact) (tr : List Phase)
    (h : initiate_data_validation loader engine n ing cfg = Except.ok (a, tr)) :
    tr = [Phase.LOAD_DATASETS, Phase.DETECT_DRIFT, Phase.PERSIST_REPORT,
          Phase.CHECK_SCHEMAS, Phase.COMBINE, Phase.EMIT_ARTIFACT] := by
  unfold initiate_data_validation read_data at h
  cases hT : loader ing.trained_file_path with
  | error e => rw [hT] at h; cases h
  | ok train_df =>
    cases hS : loader ing.test_file_path with
    | error e => rw [hT, hS] at h; cases h
    | ok test_df =>
      rw [hT, hS] at h
      simp only [detect_dataset_drift, effect_phase, Except.ok.injEq, Prod.mk.injEq] at h
      exact h.2.symm

/-- Witness for C4's amended statement at the concrete fixture run. -/
theorem phase_order_actual_witness :
    initiate_data_validation loaderC engineDrift 2 ingC cfgC = Except.ok (artC, trC) ∧
    trC = [Phase.LOAD_DATASETS, Phase.DETECT_DRIFT, Phase.PERSIST_REPORT,
           Phase.CHECK_SCHEMAS, Phase.COMBINE, Phase.EMIT_ARTIFACT] :=
  ⟨rfl, phase_order_actual loaderC engineDrift 2 ingC cfgC artC trC rfl⟩

/-- C9: on every successful run, the emitted artifact's valid paths are the
ingestion artifact's train/test paths and its invalid and drift-report paths
are the configured paths, all passed through unchanged, whatever the
validation status is. -/
theorem artifact_paths_passthrough
    (loader : String → Except String Dataset)
    (engine : Dataset → Dataset → List MetricEntry)
    (n : Nat) (ing : DataIngestionArtifact) (cfg : DataValidationConfig)
    (a : DataValidationArtifact) (tr : List Phase)
    (h : initiate_data_validation loader engine n ing cfg = Except.ok (a, tr)) :
    a.valid_train_file_path = ing.trained_file_path ∧
    a.valid_test_file_path = ing.test_file_path ∧
    a.invalid_train_file_path = cfg.invalid_train_file_path ∧
    a.invalid_test_file_path = cfg.invalid_test_file_path ∧
    a.drift_report_file_path = cfg.drift_report_file_path := by
  unfold initiate_data_validation read_data at h
  cases hT : loader ing.trained_file_path with
  | error e => rw [hT] at h; cases h
  | ok train_df =>
    cases hS : loader ing.test_file_path with
    | error e => rw [hT, hS] at h; cases h
    | ok test_df =>
      rw [hT, hS] at h
      simp only [Except.ok.injEq, Prod.mk.injEq] at h
      rw [← h.1]
      exact ⟨rfl, rfl, rfl, rfl, rfl⟩

/-- Witness for C9 at the concrete fixture run. -/
theorem artifact_paths_passthrough_witness :
    initiate_data_validation loaderC engineDrift 2 ingC cfgC = Except.ok (artC, trC) ∧
    (artC.valid_train_file_path = ingC.trained_file_path ∧
     artC.valid_test_file_path = ingC.test_file_path ∧
     artC.invalid_train_file_path = cfgC.invalid_train_file_path ∧
     artC.invalid_test_file_path = cfgC.invalid_test_file_path ∧
     artC.drift_report_file_path = cfgC.drift_report_file_path) :=
  ⟨rfl, artifact_paths_passthrough loaderC engineDrift 2 ingC cfgC artC trC rfl⟩

/-- C6: if loading the train dataset or loading the test dataset fails, the
whole run aborts with a wrapped load error and no artifact is produced; by
the result type, every run is either a complete artifact or such an explicit
error. -/
theorem run_aborts_on_load_failure
    (loader : String → Except String Dataset)
    (engine : Dataset → Dataset → List MetricEntry)
    (n : Nat) (ing : DataIngestionArtifact) (cfg : DataValidationConfig)
    (h : (∃ e, loader ing.trained_file_path = Except.error e) ∨
         (∃ e, loader ing.test_file_path = Except.error e)) :
    ∃ msg, initiate_data_validation loader engine n ing cfg
        = Except.error (CustomerException.wrap msg) := by
  unfold initiate_data_validation read_data
  rcases h with ⟨e, he⟩ | ⟨e, he⟩
  · exact ⟨e, by rw [he]⟩
  · cases hT : loader ing.trained_file_path with
    | error e2 => exact ⟨e2, rfl⟩
    | ok train_df => exact ⟨e, by rw [he]⟩

/-- Witness for C6 with the always-failing loader. -/
theorem run_aborts_on_load_failure_witness :
    ((∃ e, loaderFail ingC.trained_file_path = Except.error e) ∨
     (∃ e, loaderFail ingC.test_file_path = Except.error e)) ∧
    (∃ msg, initiate_data_validation loaderFail engineDrift 2 ingC cfgC
        = Except.error (CustomerException.wrap msg)) :=
  ⟨Or.inl ⟨"parse error", rfl⟩,
   (run_aborts_on_load_failure loaderFail engineDrift 2 ingC cfgC
     (Or.inl ⟨"parse error", rfl⟩))⟩

/-- C7: the validation is deterministic — two runs on equal inputs produce
the identical orchestrator result (artifact and trace), and the drift
aggregation on equal dataset pairs produces the identical DriftReport; the
embedding of the source has no ambient state or randomness. -/
theorem validation_run_deterministic
    (loader₁ loader₂ : String → Except String Dataset)
    (engine₁ engine₂ : Dataset → Dataset → List MetricEntry)
    (n₁ n₂ : Nat) (ing₁ ing₂ : DataIngestionArtifact)
    (cfg₁ cfg₂ : DataValidationConfig)
    (ref₁ ref₂ cur₁ cur₂ : Dataset)
    (hl : loader₁ = loader₂) (he : engine₁ = engine₂) (hn : n₁ = n₂)
    (hi : ing₁ = ing₂) (hc : cfg₁ = cfg₂)
    (hr : ref₁ = ref₂) (hcur : cur₁ = cur₂) :
    initiate_data_validation loader₁ engine₁ n₁ ing₁ cfg₁
      = initiate_data_validation loader₂ engine₂ n₂ ing₂ cfg₂ ∧
    aggregate ref₁ cur₁ = aggregate ref₂ cur₂ := by
  subst hl; subst he; subst hn; subst hi; subst hc; subst hr; subst hcur
  exact ⟨rfl, rfl⟩

/-- Witness for C7 at the concrete fixture inputs. -/
theorem validation_run_deterministic_witness :
    initiate_data_validation loaderC engineDrift 2 ingC cfgC
      = initiate_data_validation loaderC engineDrift 2 ingC cfgC ∧
    aggregate dsA dsB = aggregate dsA dsB :=
  validation_run_deterministic loaderC loaderC engineDrift engineDrift 2 2 ingC ingC
    cfgC cfgC dsA dsA dsB dsB rfl rfl rfl rfl rfl rfl rfl

/-- Helper: the total variation distance of a column's value distribution to
itself is zero. -/
theorem tvDistance_self (xs : List Int) : tvDistance xs xs = 0 := by
  have h0 : ∀ x ∈ ((xs ++ xs).dedup).map (fun v => |freqRatio v xs - freqRatio v xs|),
      x = (0 : ℚ) := by
    intro x hx
    rcases List.mem_map.mp hx with ⟨v, hv, rfl⟩
    simp
  unfold tvDistance
  rw [List.sum_eq_zero h0, zero_div]

/-- Helper: comparing a column with itself never flags drift. -/
theorem detectColumn_self_not_drifted (c : Column) :
    (detectColumn c c).drift_detected = false := by
  simp only [detectColumn, tvDistance_self]
  rw [decide_eq_false_iff_not]
  unfold driftThreshold
  norm_num

/-- Helper: in a column list with pairwise distinct names, the by-name search
for the name of a member returns that member itself. -/
theorem find_name_self (cols : List Column) (c : Column) (hc : c ∈ cols)
    (hnd : (cols.map Column.name).Nodup) :
    cols.find? (fun x => x.name == c.name) = some c := by
  induction cols with
  | nil => cases hc
  | cons y ys ih =>
    rw [List.map_cons, List.nodup_cons] at hnd
    rcases List.mem_cons.mp hc with rfl | hmem
    · simp [List.find?]
    · have hy : (y.name == c.name) = false := by
        rw [beq_eq_false_iff_ne]
        intro he
        apply hnd.1
        rw [he]
        exact List.mem_map.mpr ⟨c, hmem, rfl⟩
      simp only [List.find?, hy]
      exact ih hmem hnd.2

/-- Helper: a `filterMap` whose function succeeds on every element of the
list is a `map`. -/
theorem filterMap_eq_map_of_forall {α β : Type} (f : α → Option β) (g : α → β)
    (l : List α) (h : ∀ a ∈ l, f a = some (g a)) : l.filterMap f = l.map g := by
  induction l with
  | nil => rfl
  | cons x xs ih =>
    simp only [List.filterMap_cons, h x (List.mem_cons_self x xs), List.map_cons]
    rw [ih (fun a ha => h a (List.mem_cons_of_mem x ha))]

/-- C8: aggregating drift between a dataset and an identical copy of itself
(for datasets with pairwise distinct column names, as the loader produces)
yields no dataset drift and zero drifted columns. -/
theorem aggregate_self_no_drift (d : Dataset)
    (hnd : (d.columns.map Column.name).Nodup) :
    (aggregate d d).dataset_drift = false ∧
    (aggregate d d).number_of_drifted_columns = 0 := by
  have hshared : (d.columns.filterMap (fun c =>
      match lookupColumn c.name d with
      | some cur => some (detectColumn c cur)
      | none => none)) = d.columns.map (fun c => detectColumn c c) := by
    apply filterMap_eq_map_of_forall
    intro c hc
    rw [lookupColumn, find_name_self d.columns c hc hnd]
  have hnone : (d.columns.map (fun c => detectColumn c c)).filter
      (fun r => r.drift_detected) = [] := by
    rw [List.filter_eq_nil_iff]
    intro r hr
    rcases List.mem_map.mp hr with ⟨c, hc, rfl⟩
    simp [detectColumn_self_not_drifted]
  unfold aggregate
  simp only [hshared, hnone, List.length_nil, Nat.cast_zero, zero_div]
  constructor
  · norm_num
  · trivial

/-- Witness for C8 at the concrete fixture dataset. -/
theorem aggregate_self_no_drift_witness :
    (dsA.columns.map Column.name).Nodup ∧
    ((aggregate dsA dsA).dataset_drift = false ∧
     (aggregate dsA dsA).number_of_drifted_columns = 0) :=
  ⟨(by decide), aggregate_self_no_drift dsA (by decide)⟩
